import Mathlib

/-!
Verification of the order placement and fulfillment engine of the
basice-typescript-server repository against its natural-language
specification.

The embedding models the persistent store as an explicit `DB` value and each
HTTP handler of `src/controllers/ordersController.ts` (and the webhook
handlers of the Stripe controller) as a pure function from a `DB` and the
request data to a response paired with the successor `DB`.  Monetary values
(Postgres `numeric(10,2)` columns, JavaScript numbers) are modelled as exact
rationals; the `numeric(10,2)` storage of computed order totals is modelled
by rounding to cents at insertion time.  Database transactions
(`db.transaction`) are modelled with `Except`: a thrown error inside the
callback rolls the whole transaction back, so the wrapper returns the
original `DB`.

Nondeterministic externals are passed as parameters: the order number
(`generateOrderNumber`, time + random), the authenticated user id extracted
from the JWT, and the result of `stripe.webhooks.constructEvent`.

The repository runs its `.ts` sources with stripped types (which is also
why the stray statement on ordersController line 177 surfaces as a runtime
ReferenceError instead of a compile failure), so the inventory updates
`set({ quantity: productsTable.quantity - item.quantity })` execute as
written: a Drizzle Column object minus a number is NaN, and binding NaN as
the parameter of an integer quantity column makes the UPDATE fail, aborting
the enclosing transaction.  The embedding models every such decrement
statement as a store error (`runDecrementLoop`, and the error branch of
`fulfillItems`); `applyDecrements` records only the decrement the written
SQL intends, which no execution ever commits.
-/

namespace Store

/-- Shipping/billing address as validated by `createOrder` (lines 104-109). -/
structure Address where
  firstName : String
  lastName : String
  address1 : String
  address2 : Option String
  city : String
  state : String
  zipCode : String
  country : String
deriving Repr, DecidableEq

/-- Row of `productsTable` (db/schema.ts), restricted to the columns the
order engine reads: identity, name, sku, prices, and the inventory block
`quantity` / `trackQuantity` / `allowBackorder`. -/
structure Product where
  id : Nat
  name : String
  sku : Option String
  price : Rat
  comparePrice : Option Rat
  quantity : Int
  trackQuantity : Bool
  allowBackorder : Bool
deriving Repr, DecidableEq

/-- Row of `productVariantsTable`: overrides price/sku/quantity of its
parent product. -/
structure ProductVariant where
  id : Nat
  productId : Nat
  sku : Option String
  price : Option Rat
  comparePrice : Option Rat
  quantity : Int
deriving Repr, DecidableEq

/-- The `order_status` enum. -/
inductive OrderStatus where
  | pending | confirmed | processing | shipped | delivered | cancelled | refunded
deriving Repr, DecidableEq

/-- The `payment_status` enum. -/
inductive PaymentStatus where
  | pending | paid | failed | refunded | cancelled
deriving Repr, DecidableEq

/-- Row of `ordersTable`, restricted to the fields the order engine writes.
The webhook fulfillment path targets the repository's earlier schema
variant, whose orders table has no order-number column; orders created on
that path carry an empty `orderNumber` and no addresses. -/
structure Order where
  id : Nat
  orderNumber : String
  userId : Option Nat
  customerEmail : String
  customerPhone : Option String
  shippingAddress : Option Address
  billingAddress : Option Address
  subtotal : Rat
  taxAmount : Rat
  shippingAmount : Rat
  total : Rat
  shippingMethod : Option String
  paymentMethod : Option String
  transactionId : Option String
  status : OrderStatus
  paymentStatus : PaymentStatus
deriving Repr, DecidableEq

/-- Row of `orderItemsTable`: the snapshot of a product (and optional
variant) frozen into an order line.  Timestamps and the pure-payload
`variant_options` json column (written but never read by any handler) are
omitted. -/
structure OrderItem where
  id : Nat
  orderId : Nat
  productId : Option Nat
  variantId : Option Nat
  productName : String
  productSku : Option String
  quantity : Int
  price : Rat
  comparePrice : Option Rat
deriving Repr, DecidableEq

/-- The persistent store: the four tables the order engine touches, plus
the serial-column counters for generated primary keys. -/
structure DB where
  products : List Product
  variants : List ProductVariant
  orders : List Order
  orderItems : List OrderItem
  nextOrderId : Nat
  nextOrderItemId : Nat
deriving Repr, DecidableEq

/-- One entry of the `items` array of a create-order request (interface
`OrderItem` of the controller). -/
structure ReqItem where
  productId : Nat
  variantId : Option Nat
  quantity : Int
deriving Repr, DecidableEq

/-- Body of a create-order request (interface `CreateOrderRequest`). -/
structure CreateOrderRequest where
  customerEmail : String
  customerPhone : Option String
  shippingAddress : Address
  billingAddress : Option Address
  items : List ReqItem
  shippingMethod : Option String
  paymentMethod : Option String
deriving Repr, DecidableEq

/-- Response of the `createOrder` handler. -/
inductive CreateOrderResp where
  | created (order : Order) (items : List OrderItem)
  | badRequest (msg : String)
  | notFound (msg : String)
  | unauthenticated
  | internalError
deriving Repr, DecidableEq

/-- Whether a create-order response is the 201 success payload. -/
def CreateOrderResp.isCreated : CreateOrderResp → Bool
  | .created _ _ => true
  | _ => false

/-- The order carried by a 201 create-order response, if any. -/
def CreateOrderResp.order? : CreateOrderResp → Option Order
  | .created o _ => some o
  | _ => none

/-- Rounding of a computed amount to two decimal places, as performed by
storing it into a `numeric(10,2)` column. -/
def roundCents (q : Rat) : Rat := (round (q * 100) : ℤ) / 100

/-- First product row matching an id (`select ... where eq(id) limit 1`). -/
def findProduct (db : DB) (pid : Nat) : Option Product :=
  db.products.find? (fun p => p.id == pid)

/-- First variant row matching an id. -/
def findVariant (db : DB) (vid : Nat) : Option ProductVariant :=
  db.variants.find? (fun v => v.id == vid)

/-- First order row matching an id. -/
def findOrder (db : DB) (oid : Nat) : Option Order :=
  db.orders.find? (fun o => o.id == oid)

/-- On-hand quantity of a product, when it exists. -/
def quantityOf (db : DB) (pid : Nat) : Option Int :=
  (findProduct db pid).map (fun p => p.quantity)

/-- On-hand quantity of a variant, when it exists. -/
def variantQuantityOf (db : DB) (vid : Nat) : Option Int :=
  (findVariant db vid).map (fun v => v.quantity)

/-- The stock-check condition of `createOrder` line 156:
`product.trackQuantity && product.quantity < item.quantity &&
!product.allowBackorder`. -/
def insufficientStock (p : Product) (q : Int) : Bool :=
  p.trackQuantity && decide (p.quantity < q) && !p.allowBackorder

/-- Validation of the shipping address (line 105): every required field is
truthy, which for strings means non-empty. -/
def addressComplete (a : Address) : Bool :=
  a.firstName != "" && a.lastName != "" && a.address1 != "" && a.city != "" &&
  a.state != "" && a.zipCode != "" && a.country != ""

/-- Snapshot accumulated into `orderItems` by the resolution loop of
`createOrder` (lines 165-174).  In the variant branch of the source the
local `product` is left as the one-element result array and never unwrapped
to its row, so `product.name`, `product.sku` and `product.comparePrice`
evaluate to `undefined` there; `productName` is therefore an `Option`,
`none` exactly in the variant branch. -/
structure ItemSnapshot where
  productId : Nat
  variantId : Option Nat
  productName : Option String
  productSku : Option String
  quantity : Int
  price : Rat
  comparePrice : Option Rat
deriving Repr, DecidableEq

/-- Resolution of one requested item (lines 114-175): look up the variant
and/or product, run the stock check, and build the snapshot.  In the
variant branch the source accesses `product.trackQuantity` on the
un-unwrapped result array, so the stock-check condition is always falsy
there and no insufficient-stock error can be raised for variant items. -/
def resolveItem (db : DB) (item : ReqItem) : Except CreateOrderResp (ItemSnapshot × Rat) :=
  match item.variantId with
  | some vid =>
    match findVariant db vid with
    | none => .error (.notFound ("Variant with ID " ++ toString vid ++ " not found"))
    | some v =>
      match findProduct db v.productId with
      | none => .error (.notFound ("Product for variant " ++ toString vid ++ " not found"))
      | some _ =>
        let price := v.price.getD 0
        .ok ({ productId := item.productId, variantId := some vid, productName := none,
               productSku := none, quantity := item.quantity, price := price,
               comparePrice := none }, price * item.quantity)
  | none =>
    match findProduct db item.productId with
    | none => .error (.notFound ("Product with ID " ++ toString item.productId ++ " not found"))
    | some p =>
      let price := p.price
      if insufficientStock p item.quantity then
        .error (.badRequest ("Insufficient inventory for product " ++ p.name))
      else
        .ok ({ productId := item.productId, variantId := none, productName := some p.name,
               productSku := p.sku, quantity := item.quantity, price := price,
               comparePrice := p.comparePrice }, price * item.quantity)

/-- The fail-fast resolution loop over the requested items, accumulating
the snapshots and the subtotal. -/
def resolveItems (db : DB) : List ReqItem → Except CreateOrderResp (List ItemSnapshot × Rat)
  | [] => .ok ([], 0)
  | item :: rest =>
    match resolveItem db item with
    | .error r => .error r
    | .ok (snap, t) =>
      match resolveItems db rest with
      | .error r => .error r
      | .ok (snaps, sub) => .ok (snap :: snaps, t + sub)

/-- Uniqueness probe for the `orders_order_number_unique` constraint. -/
def orderNumberTaken (db : DB) (n : String) : Bool :=
  db.orders.any (fun o => o.orderNumber == n)

/-- Foreign-key probe for an order-item row: `product_id` and `variant_id`
must reference existing rows when set.  In the variant branch the raw
`item.productId` of the request is inserted without ever being validated,
so this can fail inside the transaction. -/
def itemFkOk (db : DB) (s : ItemSnapshot) : Bool :=
  (findProduct db s.productId).isSome &&
  (match s.variantId with
   | none => true
   | some vid => (findVariant db vid).isSome)

/-- The per-item effect the decrement loop of lines 220-236 is written to
have: subtract each requested quantity from the variant row (when a
variant id is given) or from the product row, with no `trackQuantity`,
`allowBackorder` or non-negativity guard.  This is only the intended
reading of `set({ quantity: productsTable.quantity - item.quantity })`:
at runtime that expression is NaN and every such UPDATE fails (see
`runDecrementLoop`), so no execution ever commits this effect; the
definition serves to state what a successful commit would have to look
like. -/
def applyDecrements (db : DB) : List ReqItem → DB
  | [] => db
  | item :: rest =>
    let db' :=
      match item.variantId with
      | some vid =>
        { db with variants := db.variants.map (fun v =>
            if v.id == vid then { v with quantity := v.quantity - item.quantity } else v) }
      | none =>
        { db with products := db.products.map (fun p =>
            if p.id == item.productId then { p with quantity := p.quantity - item.quantity } else p) }
    applyDecrements db' rest

/-- All order fields prepared before the transaction begins
(lines 183-200). -/
structure OrderDraft where
  orderNumber : String
  userId : Nat
  customerEmail : String
  customerPhone : Option String
  shippingAddress : Address
  billingAddress : Address
  subtotal : Rat
  taxAmount : Rat
  shippingAmount : Rat
  total : Rat
  shippingMethod : Option String
  paymentMethod : Option String
deriving Repr, DecidableEq

/-- The order row built by the insert of lines 183-201, with the computed
totals stored into `numeric(10,2)` columns. -/
def mkNewOrder (oid : Nat) (d : OrderDraft) : Order :=
  { id := oid, orderNumber := d.orderNumber, userId := some d.userId,
    customerEmail := d.customerEmail, customerPhone := d.customerPhone,
    shippingAddress := some d.shippingAddress, billingAddress := some d.billingAddress,
    subtotal := roundCents d.subtotal, taxAmount := roundCents d.taxAmount,
    shippingAmount := roundCents d.shippingAmount, total := roundCents d.total,
    shippingMethod := d.shippingMethod, paymentMethod := d.paymentMethod,
    transactionId := none, status := .pending, paymentStatus := .pending }

/-- The order-item rows built by the insert of lines 203-218, with serial
ids assigned in sequence. -/
def mkOrderItems (orderId : Nat) : Nat → List ItemSnapshot → List OrderItem
  | _, [] => []
  | nextId, s :: rest =>
    { id := nextId, orderId := orderId, productId := some s.productId,
      variantId := s.variantId, productName := s.productName.getD "",
      productSku := s.productSku, quantity := s.quantity, price := s.price,
      comparePrice := s.comparePrice } :: mkOrderItems orderId (nextId + 1) rest

/-- Error raised by the store inside the create-order transaction:
violation of the order-number uniqueness constraint, of the NOT NULL
constraint on `order_items.product_name` (hit whenever a variant item is
ordered, since the variant branch leaves `productName` undefined), a
foreign-key violation of `order_items`, or the NaN parameter produced by
the decrement loop's Column-minus-number expression. -/
inductive TxError where
  | uniqueViolation
  | notNullViolation
  | fkViolation
  | nanQuantity
deriving Repr, DecidableEq

/-- The decrement loop of lines 220-236 as it actually executes: the new
value `productsTable.quantity - item.quantity` (and likewise for
variants) is a Drizzle Column object minus a number, which evaluates to
NaN; binding NaN as the parameter of the integer quantity column makes
the UPDATE fail on the loop's first item, aborting the transaction.  An
empty item list runs no update and succeeds. -/
def runDecrementLoop (db : DB) : List ReqItem → Except TxError DB
  | [] => .ok db
  | _ :: _ => .error .nanQuantity

/-- The `db.transaction` callback of `createOrder` (lines 181-242): insert
the order row, insert all order-item rows, then run the decrement loop —
which fails at its first item (NaN into the integer quantity column).  An
error at any step aborts the callback; the wrapper then discards every
write of the callback (rollback). -/
def runCreateOrderTx (db : DB) (draft : OrderDraft) (snaps : List ItemSnapshot)
    (items : List ReqItem) : Except TxError (DB × Order × List OrderItem) :=
  if orderNumberTaken db draft.orderNumber then .error .uniqueViolation
  else
    let newOrder := mkNewOrder db.nextOrderId draft
    let db1 := { db with orders := db.orders ++ [newOrder], nextOrderId := db.nextOrderId + 1 }
    if !(snaps.all fun s => s.productName.isSome) then .error .notNullViolation
    else if !(snaps.all fun s => itemFkOk db1 s) then .error .fkViolation
    else
      let newItems := mkOrderItems newOrder.id db1.nextOrderItemId snaps
      let db2 := { db1 with
                   orderItems := db1.orderItems ++ newItems,
                   nextOrderItemId := db1.nextOrderItemId + snaps.length }
      match runDecrementLoop db2 items with
      | .error e => .error e
      | .ok db3 => .ok (db3, newOrder, newItems)

/-- The read-only phase of `createOrder` (lines 82-175): authentication,
request validation and the item-resolution loop.  No store mutation occurs
here; in particular the line-156 stock check is executed outside the
transaction that later performs the decrements. -/
def createOrderValidate (db : DB) (auth : Option Nat) (req : CreateOrderRequest) :
    Except CreateOrderResp (Nat × List ItemSnapshot × Rat) :=
  match auth with
  | none => .error .unauthenticated
  | some userId =>
    if userId == 0 then .error .unauthenticated
    else if req.customerEmail == "" || req.items.isEmpty then
      .error (.badRequest "Customer email, shipping address, and items array are required")
    else if !(addressComplete req.shippingAddress) then
      .error (.badRequest "Complete shipping address is required")
    else
      match resolveItems db req.items with
      | .error r => .error r
      | .ok (snaps, subtotal) => .ok (userId, snaps, subtotal)

/-- Pricing (lines 177-179, with the stray statement removed) and the
order fields prepared for the transaction's insert: `taxAmount` is
`subtotal * 0.1`, `shippingAmount` the flat `10.00`, `total` their sum,
and the billing address defaults to the shipping address. -/
def mkDraft (orderNumber : String) (userId : Nat) (req : CreateOrderRequest)
    (subtotal : Rat) : OrderDraft :=
  let taxAmount := subtotal * (1 / 10)
  let shippingAmount : Rat := 10
  let total := subtotal + taxAmount + shippingAmount
  { orderNumber := orderNumber, userId := userId, customerEmail := req.customerEmail,
    customerPhone := req.customerPhone, shippingAddress := req.shippingAddress,
    billingAddress := req.billingAddress.getD req.shippingAddress,
    subtotal := subtotal, taxAmount := taxAmount, shippingAmount := shippingAmount,
    total := total, shippingMethod := req.shippingMethod,
    paymentMethod := req.paymentMethod }

/-- Pricing followed by the transaction of lines 181-242, with the 500
response produced by the handler's catch block when the transaction
fails. -/
def createOrderCommit (db : DB) (orderNumber : String) (userId : Nat)
    (req : CreateOrderRequest) (snaps : List ItemSnapshot) (subtotal : Rat) :
    CreateOrderResp × DB :=
  match runCreateOrderTx db (mkDraft orderNumber userId req subtotal) snaps req.items with
  | .error _ => (.internalError, db)
  | .ok (db', o, its) => (.created o its, db')

/-- The `createOrder` handler exactly as the source executes: line 177
reads `const taxAmount = subtotal * 0.1;x` — the trailing statement `x`
references an undeclared identifier, so after the resolution loop the
handler raises a ReferenceError, the catch block answers 500, and the
transaction of lines 181-242 is never entered. -/
def createOrder (db : DB) (auth : Option Nat) (_orderNumber : String)
    (req : CreateOrderRequest) : CreateOrderResp × DB :=
  match createOrderValidate db auth req with
  | .error r => (r, db)
  | .ok _ => (.internalError, db)

/-- The `createOrder` handler with the single stray token of line 177
removed, i.e. the handler whose pricing and transaction code the rest of
the function body spells out.  Even so, its transaction aborts at the
decrement loop for every non-empty cart (and validation rejects empty
carts), so no request ever commits an order. -/
def createOrderNoStray (db : DB) (auth : Option Nat) (orderNumber : String)
    (req : CreateOrderRequest) : CreateOrderResp × DB :=
  match createOrderValidate db auth req with
  | .error r => (r, db)
  | .ok (userId, snaps, subtotal) => createOrderCommit db orderNumber userId req snaps subtotal

/-- Interleaved execution of two create-order requests under the schedule
in which both requests finish their read-only phase (validation, item
resolution and the line-156 stock check) against the same initial store
before either transaction runs.  This schedule is possible because the
stock check runs outside `db.transaction`; request B's transaction then
runs on the state left by request A's.  (With the failing decrement
UPDATE, each transaction in fact aborts and rolls back, so neither
request ever commits.) -/
def twoConcurrentCreates (db : DB) (auth : Option Nat) (numA numB : String)
    (reqA reqB : CreateOrderRequest) : CreateOrderResp × CreateOrderResp × DB :=
  match createOrderValidate db auth reqA, createOrderValidate db auth reqB with
  | .ok (uA, sA, subA), .ok (uB, sB, subB) =>
    let ra := createOrderCommit db numA uA reqA sA subA
    let rb := createOrderCommit ra.2 numB uB reqB sB subB
    (ra.1, rb.1, rb.2)
  | .error rA, .ok (uB, sB, subB) =>
    let rb := createOrderCommit db numB uB reqB sB subB
    (rA, rb.1, rb.2)
  | .ok (uA, sA, subA), .error rB =>
    let ra := createOrderCommit db numA uA reqA sA subA
    (ra.1, rB, ra.2)
  | .error rA, .error rB => (rA, rB, db)

/-- One `{productId, quantity}` pair of the cart list embedded in the
checkout session's metadata at session-creation time. -/
structure SessionCartItem where
  productId : Nat
  quantity : Int
deriving Repr, DecidableEq

/-- The fields of a Stripe checkout session that `handleSuccessfulPayment`
reads: the metadata placed there by `stripeCheckOut` and the payment
intent.  `userId` is `parseInt(session.metadata?.userId || '0')`, so a
missing or unparsable id is `0`. -/
structure StripeSession where
  userId : Nat
  userEmail : String
  cartItems : List SessionCartItem
  paymentIntent : Option String
deriving Repr, DecidableEq

/-- A verified Stripe webhook event: its type string and the checkout
session it carries. -/
structure StripeEvent where
  type : String
  session : StripeSession
deriving Repr, DecidableEq

/-- Per-item loop body of the webhook fulfillment transaction
(stripController lines 176-206): resolve the product by the metadata id
(throwing when absent, which aborts the whole transaction), then update
its quantity with `products.quantity - item.quantity`.  That value is a
Drizzle Column object minus a number — NaN at runtime — so the UPDATE
fails and the loop throws at its first item; no stock check of any kind
is performed here (the only stock check of this path ran at
session-creation time in `stripeCheckOut`, outside this transaction).
An empty list runs no iteration and returns its accumulators. -/
def fulfillItems (db : DB) : List SessionCartItem → Rat → List (Nat × String × Int × Rat) →
    Except String (DB × Rat × List (Nat × String × Int × Rat))
  | [], subtotal, acc => .ok (db, subtotal, acc)
  | item :: _, _, _ =>
    match findProduct db item.productId with
    | none => .error ("Product " ++ toString item.productId ++ " not found")
    | some _ => .error "invalid input syntax for type integer: NaN"

/-- The `handleSuccessfulPayment` function of the Stripe controller
(lines 162-240): validate the metadata, then inside one transaction
resolve and decrement every cart item, compute the totals, and insert the
order with its items.  A thrown error rolls the transaction back, which
the caller models by keeping the original store.  Since the metadata guard
rejects empty carts and the per-item loop throws at its first item (the
failing NaN decrement, or a missing product), fulfillment in fact always
rolls back and never commits an order.  The webhook path targets the
repository's earlier orders schema (no order number, no addresses); those
fields are stored empty. -/
def handleSuccessfulPayment (db : DB) (session : StripeSession) :
    Except String (DB × Order) :=
  if session.userId == 0 || session.cartItems.isEmpty then
    .error "Missing required metadata for order creation"
  else
    match fulfillItems db session.cartItems 0 [] with
    | .error e => .error e
    | .ok (db1, subtotal, itemsData) =>
      let taxAmount := subtotal * (1 / 10)
      let shippingAmount : Rat := 10
      let total := subtotal + taxAmount + shippingAmount
      let newOrder : Order :=
        { id := db1.nextOrderId, orderNumber := "", userId := some session.userId,
          customerEmail := session.userEmail, customerPhone := none,
          shippingAddress := none, billingAddress := none,
          subtotal := roundCents subtotal, taxAmount := roundCents taxAmount,
          shippingAmount := roundCents shippingAmount, total := roundCents total,
          shippingMethod := none, paymentMethod := some "stripe",
          transactionId := session.paymentIntent, status := .confirmed,
          paymentStatus := .pending }
      let db2 := { db1 with
                   orders := db1.orders ++ [newOrder],
                   nextOrderId := db1.nextOrderId + 1 }
      let newItems := itemsData.enum.map (fun x =>
        ({ id := db2.nextOrderItemId + x.1, orderId := newOrder.id,
           productId := some x.2.1, variantId := none, productName := x.2.2.1,
           productSku := none, quantity := x.2.2.2.1, price := x.2.2.2.2,
           comparePrice := none } : OrderItem))
      let db3 := { db2 with
                   orderItems := db2.orderItems ++ newItems,
                   nextOrderItemId := db2.nextOrderItemId + newItems.length }
      .ok (db3, newOrder)

/-- HTTP answer of the webhook endpoint. -/
structure WebhookResp where
  status : Nat
  body : String
deriving Repr, DecidableEq

/-- The `stripeWebhook` handler (stripController lines 128-159).  The
outcome of `stripe.webhooks.constructEvent(req.body, sig, endpointSecret)`
is passed in as `constructEvent`: `Except.error` when signature
verification fails (or the shared secret is not configured), in which case
the handler answers 400 before touching the store; `Except.ok` when the
event is verified.  For a verified `checkout.session.completed` event the
fulfillment runs, any error it throws is caught and logged, and the
handler acknowledges with 200 in every case. -/
def stripeWebhook (db : DB) (constructEvent : Except String StripeEvent) :
    WebhookResp × DB :=
  match constructEvent with
  | .error msg => ({ status := 400, body := "Webhook Error: " ++ msg }, db)
  | .ok event =>
    if event.type == "checkout.session.completed" then
      match handleSuccessfulPayment db event.session with
      | .ok (db', _) => ({ status := 200, body := "received" }, db')
      | .error _ => ({ status := 200, body := "received" }, db)
    else ({ status := 200, body := "received" }, db)

/-- Terminal-status test of `addProductToOrder` line 554:
`['shipped', 'delivered', 'cancelled'].includes(status)`. -/
def terminalStatus (s : OrderStatus) : Bool :=
  s == .shipped || s == .delivered || s == .cancelled

/-- JavaScript `a || b` on optional strings: the empty string is falsy and
falls through to the default. -/
def jsStrOr (a : Option String) (dflt : String) : String :=
  match a with
  | some s => if s == "" then dflt else s
  | none => dflt

/-- Duplicate-line probe of `addProductToOrder` (lines 607-617):
`and(eq(orderId), eq(productId), variantId ? eq(variantId) : undefined)`.
Drizzle drops the `undefined` conjunct, so when the request carries no
variant id any line of the order with the same product id matches,
whatever its variant. -/
def duplicateLineExists (db : DB) (oid pid : Nat) (vid : Option Nat) : Bool :=
  db.orderItems.any (fun it =>
    it.orderId == oid && it.productId == some pid &&
    (match vid with
     | none => true
     | some v => it.variantId == some v))

/-- Response of the `addProductToOrder` handler. -/
inductive AddItemResp where
  | created (item : OrderItem)
  | badRequest (msg : String)
  | notFound (msg : String)
  | internalError
deriving Repr, DecidableEq

/-- Insert step of `addProductToOrder` (lines 623-640): reject a duplicate
line, then insert the snapshot row.  `quantity || 1` turns a missing or
zero quantity into 1.  The raw `productId` of the request body is inserted
even on the variant path, where it was never validated; a dangling id then
violates the `order_items.product_id` foreign key and the insert fails
with a 500. -/
def addItemInsert (db : DB) (oid pid : Nat) (vid : Option Nat) (quantity : Option Int)
    (price : Rat) (name sku : String) (comparePrice : Option Rat) : AddItemResp × DB :=
  if duplicateLineExists db oid pid vid then
    (.badRequest "Product already exists in this order", db)
  else if !(findProduct db pid).isSome then
    (.internalError, db)
  else
    let q : Int := match quantity with
      | none => 1
      | some n => if n == 0 then 1 else n
    let newItem : OrderItem :=
      { id := db.nextOrderItemId, orderId := oid, productId := some pid,
        variantId := vid, productName := name, productSku := some sku,
        quantity := q, price := price, comparePrice := comparePrice }
    (.created newItem,
     { db with
       orderItems := db.orderItems ++ [newItem],
       nextOrderItemId := db.nextOrderItemId + 1 })

/-- The `addProductToOrder` handler (lines 534-646).  `order_id` is the
parsed path parameter, `none` when `parseInt` produced NaN.  The order
must exist and be outside the terminal set; the product (or variant and
parent product) must exist; a duplicate line is rejected; otherwise the
line is inserted.  No order total is recomputed and no stock is checked or
decremented anywhere in this handler. -/
def addProductToOrder (db : DB) (order_id : Option Nat) (productId : Nat)
    (variantId : Option Nat) (quantity : Option Int) : AddItemResp × DB :=
  match order_id with
  | none => (.badRequest "Invalid order ID", db)
  | some oid =>
    match findOrder db oid with
    | none => (.notFound "Order not found", db)
    | some order =>
      if terminalStatus order.status then
        (.badRequest "Cannot modify order in current status", db)
      else
        match variantId with
        | some vid =>
          match findVariant db vid with
          | none => (.notFound "Variant not found", db)
          | some v =>
            match findProduct db v.productId with
            | none => (.notFound "Product not found", db)
            | some p =>
              addItemInsert db oid productId (some vid) quantity (v.price.getD 0)
                p.name (jsStrOr v.sku (jsStrOr p.sku "")) p.comparePrice
        | none =>
          match findProduct db productId with
          | none => (.notFound "Product not found", db)
          | some p =>
            addItemInsert db oid productId none quantity p.price
              p.name (jsStrOr p.sku "") p.comparePrice

/-- Response of the `removeProductFromOrder` handler. -/
inductive RemoveItemResp where
  | okRemoved (item : OrderItem)
  | badRequest (msg : String)
  | notFound (msg : String)
deriving Repr, DecidableEq

/-- The `removeProductFromOrder` handler (lines 648-680): delete the
order-item rows matching the (order id, item id) pair and answer with the
first deleted row, or 404 when nothing matched.  The handler performs no
lookup of the order itself and no check of its status, and touches no
table other than `order_items`. -/
def removeProductFromOrder (db : DB) (order_id order_item_id : Option Nat) :
    RemoveItemResp × DB :=
  match order_id, order_item_id with
  | some oid, some iid =>
    match db.orderItems.filter (fun it => it.orderId == oid && it.id == iid) with
    | [] => (.notFound "Order item not found", db)
    | it :: _ =>
      (.okRemoved it,
       { db with orderItems :=
           db.orderItems.filter (fun x => !(x.orderId == oid && x.id == iid)) })
  | _, _ => (.badRequest "Invalid order ID or order item ID", db)

/-- Response of the `deleteOrder` handler. -/
inductive DeleteOrderResp where
  | okDeleted (orderId : Nat)
  | badRequest (msg : String)
  | notFound (msg : String)
deriving Repr, DecidableEq

/-- The `deleteOrder` handler (lines 682-719): 404 when the order is
absent, otherwise one transaction deletes all of the order's item rows and
then the order row.  Inventory quantities are not touched. -/
def deleteOrder (db : DB) (order_id : Option Nat) : DeleteOrderResp × DB :=
  match order_id with
  | none => (.badRequest "Invalid order ID", db)
  | some oid =>
    match findOrder db oid with
    | none => (.notFound "Order not found", db)
    | some _ =>
      let db1 := { db with orderItems := db.orderItems.filter (fun it => !(it.orderId == oid)) }
      let db2 := { db1 with orders := db1.orders.filter (fun o => !(o.id == oid)) }
      (.okDeleted oid, db2)

/-- The values of the `product_category` enum. -/
def productCategories : List String :=
  ["electronics", "clothing", "home_kitchen", "books", "sports", "beauty",
   "toys", "automotive", "health", "jewelry"]

/-- Update payload of the rich-schema products controller
(`ProductUpdatePayload`, every field optional), restricted to the columns
the modelled `Product` row carries plus `category`, whose value gates the
controller's only validation; the payload fields for the unmodelled
pure-payload columns (slug, descriptions, dimensions, media, tags,
attributes, status, ...) are orthogonal to the quantity logic and
omitted.  `quantity` is stored exactly as sent — the controller performs
no sign or range check on it. -/
structure ProductUpdatePayload where
  name : Option String
  sku : Option String
  price : Option Rat
  comparePrice : Option Rat
  quantity : Option Int
  trackQuantity : Option Bool
  allowBackorder : Option Bool
  category : Option String
deriving Repr, DecidableEq

/-- The `updateData` mapping of `updateProductService` (each field copied
from the payload when present, `if (payload.x !== undefined)`), applied to
the existing row. -/
def applyProductUpdate (p : Product) (u : ProductUpdatePayload) : Product :=
  { p with
    name := u.name.getD p.name,
    sku := match u.sku with | some s => some s | none => p.sku,
    price := u.price.getD p.price,
    comparePrice := match u.comparePrice with | some c => some c | none => p.comparePrice,
    quantity := u.quantity.getD p.quantity,
    trackQuantity := u.trackQuantity.getD p.trackQuantity,
    allowBackorder := u.allowBackorder.getD p.allowBackorder }

/-- Probe for the `products_sku_unique` constraint the update could
violate (surfaced by the service's 23505 handler as
'Product with this SKU already exists'). -/
def skuConflict (db : DB) (pid : Nat) (u : ProductUpdatePayload) : Bool :=
  match u.sku with
  | none => false
  | some s => db.products.any (fun x => !(x.id == pid) && x.sku == some s)

/-- Response of the `updateProduct` handler.  The service's error strings
are mapped by the handler: 'already exists' to 409, 'not found' to 404 and
anything else to 500 — note the absent-product message is
'No product found with id X', which does not contain the substring
'not found', so an absent product answers 500. -/
inductive UpdateProductResp where
  | updated (product : Product)
  | badRequest (msg : String)
  | conflict (msg : String)
  | serverError (msg : String)
deriving Repr, DecidableEq

/-- The rich-schema `updateProduct` handler (`updateProductService` plus
its route wrapper): parse the id (400 on NaN), read the existing row (500
with 'No product found with id X' when absent), validate `category` when
present (500 on an unknown value), then write every supplied payload field
over the row — including a negative `quantity`, which nothing rejects —
and answer with the updated row. -/
def updateProduct (db : DB) (product_id : Option Nat) (payload : ProductUpdatePayload) :
    UpdateProductResp × DB :=
  match product_id with
  | none => (.badRequest "Invalid product ID", db)
  | some pid =>
    match findProduct db pid with
    | none => (.serverError ("No product found with id " ++ toString pid), db)
    | some p =>
      if (match payload.category with
          | some c => !(productCategories.contains c)
          | none => false) then
        (.serverError "Invalid category", db)
      else if skuConflict db pid payload then
        (.conflict "Product with this SKU already exists", db)
      else
        let p' := applyProductUpdate p payload
        (.updated p',
         { db with products := db.products.map (fun x => if x.id == pid then p' else x) })

/-! Concrete fixtures used by witnesses and counterexamples. -/

/-- A complete shipping address. -/
def addr0 : Address :=
  { firstName := "A", lastName := "B", address1 := "1 Road", address2 := none,
    city := "X", state := "Y", zipCode := "Z", country := "C" }

/-- A create-order request for a single product line. -/
def singleItemReq (email : String) (addr : Address) (pid : Nat) (q : Int) :
    CreateOrderRequest :=
  { customerEmail := email, customerPhone := none, shippingAddress := addr,
    billingAddress := none, items := [{ productId := pid, variantId := none, quantity := q }],
    shippingMethod := none, paymentMethod := none }

/-- The item snapshot produced by the product (no-variant) branch of the
resolution loop. -/
def productSnap (p : Product) (pid : Nat) (q : Int) : ItemSnapshot :=
  { productId := pid, variantId := none, productName := some p.name,
    productSku := p.sku, quantity := q, price := p.price,
    comparePrice := p.comparePrice }

/-- A tracked, non-backorder product with five units on hand. -/
def widget : Product :=
  { id := 1, name := "Widget", sku := some "W-1", price := 20, comparePrice := none,
    quantity := 5, trackQuantity := true, allowBackorder := false }

/-- A store holding only `widget`. -/
def db0 : DB :=
  { products := [widget], variants := [], orders := [], orderItems := [],
    nextOrderId := 1, nextOrderItemId := 1 }

/-- A valid single-line request ordering `q` units of `widget`. -/
def reqQty (q : Int) : CreateOrderRequest := singleItemReq "c@example.com" addr0 1 q

/-- First product of the specification's pricing scenario. -/
def laptop : Product :=
  { id := 1, name := "Laptop", sku := some "L-1", price := 99999 / 100, comparePrice := none,
    quantity := 10, trackQuantity := true, allowBackorder := false }

/-- Second product of the specification's pricing scenario. -/
def tablet : Product :=
  { id := 2, name := "Tablet", sku := some "T-1", price := 69999 / 100, comparePrice := none,
    quantity := 10, trackQuantity := true, allowBackorder := false }

/-- A store holding the two pricing-scenario products. -/
def db4 : DB :=
  { products := [laptop, tablet], variants := [], orders := [], orderItems := [],
    nextOrderId := 1, nextOrderItemId := 1 }

/-- The specification's pricing-scenario cart: one laptop, two tablets. -/
def req4 : CreateOrderRequest :=
  { customerEmail := "c@example.com", customerPhone := none, shippingAddress := addr0,
    billingAddress := none,
    items := [{ productId := 1, variantId := none, quantity := 1 },
              { productId := 2, variantId := none, quantity := 2 }],
    shippingMethod := none, paymentMethod := none }

/-- An update-request body carrying only a quantity ({quantity: q}). -/
def qtyPayload (q : Int) : ProductUpdatePayload :=
  { name := none, sku := none, price := none, comparePrice := none,
    quantity := some q, trackQuantity := none, allowBackorder := none,
    category := none }

/-- An untracked product (`trackQuantity = false`, `allowBackorder = false`)
with seven units recorded. -/
def untracked : Product :=
  { id := 3, name := "Sticker", sku := none, price := 5, comparePrice := none,
    quantity := 7, trackQuantity := false, allowBackorder := false }

/-- A store holding only `untracked`. -/
def db6 : DB :=
  { products := [untracked], variants := [], orders := [], orderItems := [],
    nextOrderId := 1, nextOrderItemId := 1 }

/-- A valid request ordering three units of the untracked product. -/
def req6 : CreateOrderRequest := singleItemReq "c@example.com" addr0 3 3

/-- An empty store. -/
def dbEmpty : DB :=
  { products := [], variants := [], orders := [], orderItems := [],
    nextOrderId := 1, nextOrderItemId := 1 }

/-- A session with no user id in its metadata, on which fulfillment throws. -/
def sessBad : StripeSession :=
  { userId := 0, userEmail := "u@example.com", cartItems := [], paymentIntent := none }

/-- A verified completed-checkout event whose fulfillment raises an
internal error. -/
def evBad : StripeEvent := { type := "checkout.session.completed", session := sessBad }

/-- An order that has already been shipped. -/
def shippedOrder : Order :=
  { id := 1, orderNumber := "ORD-S", userId := some 7, customerEmail := "c@example.com",
    customerPhone := none, shippingAddress := some addr0, billingAddress := some addr0,
    subtotal := 20, taxAmount := 2, shippingAmount := 10, total := 32,
    shippingMethod := none, paymentMethod := none, transactionId := none,
    status := .shipped, paymentStatus := .paid }

/-- The single line of `shippedOrder`. -/
def item10 : OrderItem :=
  { id := 10, orderId := 1, productId := some 1, variantId := none,
    productName := "Widget", productSku := some "W-1", quantity := 1, price := 20,
    comparePrice := none }

/-- A store holding the shipped order and its line. -/
def db8 : DB :=
  { products := [widget], variants := [], orders := [shippedOrder], orderItems := [item10],
    nextOrderId := 2, nextOrderItemId := 11 }

/-- A still-pending order. -/
def pendingOrder : Order :=
  { id := 2, orderNumber := "ORD-P", userId := some 7, customerEmail := "c@example.com",
    customerPhone := none, shippingAddress := some addr0, billingAddress := some addr0,
    subtotal := 20, taxAmount := 2, shippingAmount := 10, total := 32,
    shippingMethod := none, paymentMethod := none, transactionId := none,
    status := .pending, paymentStatus := .pending }

/-- A line of `pendingOrder` for product 1 (no variant). -/
def item20 : OrderItem :=
  { id := 20, orderId := 2, productId := some 1, variantId := none,
    productName := "Widget", productSku := some "W-1", quantity := 1, price := 20,
    comparePrice := none }

/-- A store holding the pending order with its product-1 line. -/
def db8b : DB :=
  { products := [widget], variants := [], orders := [pendingOrder], orderItems := [item20],
    nextOrderId := 3, nextOrderItemId := 21 }

/-! General lemmas about the embedding. -/

/-- The decrement loop never touches the orders table. -/
theorem applyDecrements_orders (items : List ReqItem) :
    ∀ db : DB, (applyDecrements db items).orders = db.orders := by
  induction items with
  | nil => intro db; rfl
  | cons item rest ih =>
    intro db
    cases h : item.variantId <;> simp [applyDecrements, h, ih]

/-- The decrement loop never touches the order-items table. -/
theorem applyDecrements_orderItems (items : List ReqItem) :
    ∀ db : DB, (applyDecrements db items).orderItems = db.orderItems := by
  induction items with
  | nil => intro db; rfl
  | cons item rest ih =>
    intro db
    cases h : item.variantId <;> simp [applyDecrements, h, ih]

/-- The products component after the decrement loop depends only on the
initial products component. -/
theorem applyDecrements_products_congr (items : List ReqItem) :
    ∀ db db' : DB, db.products = db'.products →
      (applyDecrements db items).products = (applyDecrements db' items).products := by
  induction items with
  | nil => intro db db' h; exact h
  | cons item rest ih =>
    intro db db' h
    cases hv : item.variantId <;> simp only [applyDecrements, hv] <;> apply ih <;> simp [h]

/-- The variants component after the decrement loop depends only on the
initial variants component. -/
theorem applyDecrements_variants_congr (items : List ReqItem) :
    ∀ db db' : DB, db.variants = db'.variants →
      (applyDecrements db items).variants = (applyDecrements db' items).variants := by
  induction items with
  | nil => intro db db' h; exact h
  | cons item rest ih =>
    intro db db' h
    cases hv : item.variantId <;> simp only [applyDecrements, hv] <;> apply ih <;> simp [h]

/-- The resolution loop produces one snapshot per requested item. -/
theorem resolveItems_length (items : List ReqItem) :
    ∀ {db : DB} {snaps : List ItemSnapshot} {sub : Rat},
      resolveItems db items = .ok (snaps, sub) → snaps.length = items.length := by
  induction items with
  | nil =>
    intro db snaps sub h
    simp only [resolveItems] at h
    cases h
    rfl
  | cons item rest ih =>
    intro db snaps sub h
    simp only [resolveItems] at h
    cases h1 : resolveItem db item with
    | error r => rw [h1] at h; cases h
    | ok pr =>
      rw [h1] at h
      cases h2 : resolveItems db rest with
      | error r => rw [h2] at h; cases h
      | ok pr2 =>
        rw [h2] at h
        cases h
        simpa using ih h2

/-- One order-item row is built per snapshot. -/
theorem mkOrderItems_length (snaps : List ItemSnapshot) :
    ∀ oid n, (mkOrderItems oid n snaps).length = snaps.length := by
  induction snaps with
  | nil => intro oid n; rfl
  | cons s rest ih => intro oid n; simp [mkOrderItems, ih]

/-- Every built order-item row carries the generated order id. -/
theorem mkOrderItems_orderId (snaps : List ItemSnapshot) :
    ∀ oid n it, it ∈ mkOrderItems oid n snaps → it.orderId = oid := by
  induction snaps with
  | nil => intro oid n it h; cases h
  | cons s rest ih =>
    intro oid n it h
    cases h with
    | head => rfl
    | tail _ h' => exact ih oid (n + 1) it h'

/-- Searching a product list after replacing the row with a given id by a
row carrying that same id is the replacement of the search result. -/
theorem findProduct_map_replace (l : List Product) (pid : Nat) (p' : Product)
    (hp : p'.id = pid) :
    (l.map (fun x => if x.id == pid then p' else x)).find? (fun x => x.id == pid)
      = (l.find? (fun x => x.id == pid)).map (fun x => if x.id == pid then p' else x) := by
  induction l with
  | nil => rfl
  | cons a l ih =>
    have hid : (((if a.id == pid then p' else a) : Product).id == pid) = (a.id == pid) := by
      by_cases h : (a.id == pid) = true <;> simp [h, hp]
    cases hpa : (a.id == pid) with
    | true =>
      rw [List.map_cons, List.find?_cons_of_pos, List.find?_cons_of_pos]
      · simp
      · exact hpa
      · rw [hid]; exact hpa
    | false =>
      rw [List.map_cons, List.find?_cons_of_neg, List.find?_cons_of_neg]
      · exact ih
      · intro hc; rw [hpa] at hc; exact Bool.noConfusion hc
      · intro hc; rw [hid] at hc; rw [hpa] at hc; exact Bool.noConfusion hc

/-- Searching for an id among the rows kept by filtering that id away
finds nothing. -/
theorem find?_filter_self_none (l : List Order) (oid : Nat) :
    (l.filter (fun o => !(o.id == oid))).find? (fun o => o.id == oid) = none := by
  apply List.find?_eq_none.mpr
  intro x hx
  have hmem := (List.mem_filter.mp hx).2
  simpa using hmem

/-- Rows surviving a negative filter never satisfy the positive filter. -/
theorem filter_not_filter_nil (l : List OrderItem) (oid : Nat) :
    (l.filter (fun it => !(it.orderId == oid))).filter (fun it => it.orderId == oid) = [] := by
  rw [List.filter_eq_nil_iff]
  intro a ha
  have hmem := (List.mem_filter.mp ha).2
  simpa using hmem

/-- Case analysis of the create-order transaction: it either aborts with a
store error (as it always does when the item list is non-empty, at the
failing decrement UPDATE if nothing failed earlier), or — only possible
for an empty item list — commits the order row and all item rows in one
step, the decrement loop having nothing to run. -/
theorem runCreateOrderTx_cases (db : DB) (draft : OrderDraft) (snaps : List ItemSnapshot)
    (items : List ReqItem) :
    (∃ e, runCreateOrderTx db draft snaps items = .error e) ∨
    runCreateOrderTx db draft snaps items =
      .ok (applyDecrements
            { db with
              orders := db.orders ++ [mkNewOrder db.nextOrderId draft],
              nextOrderId := db.nextOrderId + 1,
              orderItems := db.orderItems ++ mkOrderItems db.nextOrderId db.nextOrderItemId snaps,
              nextOrderItemId := db.nextOrderItemId + snaps.length } items,
           mkNewOrder db.nextOrderId draft,
           mkOrderItems db.nextOrderId db.nextOrderItemId snaps) := by
  simp only [runCreateOrderTx]
  by_cases h1 : orderNumberTaken db draft.orderNumber = true
  · left; exact ⟨.uniqueViolation, by rw [if_pos h1]⟩
  · by_cases h2 : (!snaps.all fun s => s.productName.isSome) = true
    · left; exact ⟨.notNullViolation, by rw [if_neg h1, if_pos h2]⟩
    · by_cases h3 : (!snaps.all fun s => itemFkOk { db with
          orders := db.orders ++ [mkNewOrder db.nextOrderId draft],
          nextOrderId := db.nextOrderId + 1 } s) = true
      · left; exact ⟨.fkViolation, by rw [if_neg h1, if_neg h2, if_pos h3]⟩
      · cases items with
        | nil => right; rw [if_neg h1, if_neg h2, if_neg h3]; rfl
        | cons i rest =>
          left; exact ⟨.nanQuantity, by rw [if_neg h1, if_neg h2, if_neg h3]; rfl⟩

/-- Case analysis of pricing plus transaction: the store is left unchanged
on failure, and on success the response and the store carry exactly the
new order, its item rows, and the decremented inventory. -/
theorem createOrderCommit_cases (db : DB) (num : String) (userId : Nat)
    (req : CreateOrderRequest) (snaps : List ItemSnapshot) (subtotal : Rat) :
    (createOrderCommit db num userId req snaps subtotal).2 = db ∨
    ∃ o its,
      (createOrderCommit db num userId req snaps subtotal).1 = .created o its ∧
      (createOrderCommit db num userId req snaps subtotal).2.orders = db.orders ++ [o] ∧
      (createOrderCommit db num userId req snaps subtotal).2.orderItems = db.orderItems ++ its ∧
      its.length = snaps.length ∧
      (∀ it ∈ its, it.orderId = o.id) ∧
      (createOrderCommit db num userId req snaps subtotal).2.products
        = (applyDecrements db req.items).products ∧
      (createOrderCommit db num userId req snaps subtotal).2.variants
        = (applyDecrements db req.items).variants := by
  rcases runCreateOrderTx_cases db (mkDraft num userId req subtotal) snaps req.items with
    ⟨e, he⟩ | he
  · left; simp [createOrderCommit, he]
  · right
    refine ⟨mkNewOrder db.nextOrderId (mkDraft num userId req subtotal),
      mkOrderItems db.nextOrderId db.nextOrderItemId snaps, ?_, ?_, ?_, ?_, ?_, ?_, ?_⟩
    · simp [createOrderCommit, he]
    · simp [createOrderCommit, he, applyDecrements_orders]
    · simp [createOrderCommit, he, applyDecrements_orderItems]
    · exact mkOrderItems_length snaps _ _
    · intro it hit; exact mkOrderItems_orderId snaps _ _ it hit
    · simp only [createOrderCommit, he]
      exact applyDecrements_products_congr req.items _ db rfl
    · simp only [createOrderCommit, he]
      exact applyDecrements_variants_congr req.items _ db rfl

/-- Inversion of a successful read-only phase: the request had a non-empty
item list and the resolution loop produced exactly the returned snapshots
and subtotal. -/
theorem createOrderValidate_ok_inv {db : DB} {auth : Option Nat} {req : CreateOrderRequest}
    {userId : Nat} {snaps : List ItemSnapshot} {subtotal : Rat}
    (h : createOrderValidate db auth req = .ok (userId, snaps, subtotal)) :
    req.items ≠ [] ∧ resolveItems db req.items = .ok (snaps, subtotal) := by
  cases auth with
  | none => simp [createOrderValidate] at h
  | some uid =>
    simp only [createOrderValidate] at h
    by_cases h0 : (uid == 0) = true
    · rw [if_pos h0] at h; simp at h
    · rw [if_neg h0] at h
      by_cases hm : (req.customerEmail == "" || req.items.isEmpty) = true
      · rw [if_pos hm] at h; simp at h
      · rw [if_neg hm] at h
        by_cases ha : (!addressComplete req.shippingAddress) = true
        · rw [if_pos ha] at h; simp at h
        · rw [if_neg ha] at h
          have hne : req.items ≠ [] := by
            intro hnil
            apply hm
            simp [hnil]
          cases hres : resolveItems db req.items with
          | error r => rw [hres] at h; simp at h
          | ok pr =>
            rw [hres] at h
            refine ⟨hne, ?_⟩
            obtain ⟨s, t⟩ := pr
            simp only [Except.ok.injEq] at h
            obtain ⟨-, h2, h3⟩ := h
            rfl

/-- Resolution of a single-product request when the stock check fires. -/
theorem resolveItems_single_insufficient {db : DB} {pid : Nat} {q : Int} {p : Product}
    (h3 : findProduct db pid = some p) (h4 : insufficientStock p q = true) :
    resolveItems db [{ productId := pid, variantId := none, quantity := q }]
      = .error (.badRequest ("Insufficient inventory for product " ++ p.name)) := by
  simp [resolveItems, resolveItem, h3, h4]

/-- Resolution of a single-product request when the stock check passes. -/
theorem resolveItems_single_ok {db : DB} {pid : Nat} {q : Int} {p : Product}
    (h3 : findProduct db pid = some p) (h4 : insufficientStock p q = false) :
    resolveItems db [{ productId := pid, variantId := none, quantity := q }]
      = .ok ([productSnap p pid q], p.price * q) := by
  simp [resolveItems, resolveItem, h3, h4, productSnap]

/-- The read-only phase of a valid single-product request reduces to the
outcome of the stock check. -/
theorem createOrderValidate_single_ok {db : DB} {userId : Nat} {email : String}
    {addr : Address} {pid : Nat} {q : Int} {p : Product}
    (h0 : userId ≠ 0) (h1 : email ≠ "") (h2 : addressComplete addr = true)
    (h3 : findProduct db pid = some p) (h4 : insufficientStock p q = false) :
    createOrderValidate db (some userId) (singleItemReq email addr pid q)
      = .ok (userId, [productSnap p pid q], p.price * q) := by
  have h0' : (userId == 0) = false := by simpa using h0
  have h1' : (email == "") = false := by simpa using h1
  simp [createOrderValidate, singleItemReq, h0', h1', h2,
    resolveItems_single_ok h3 h4]

/-- The read-only phase of a valid single-product request surfaces the
insufficient-stock error. -/
theorem createOrderValidate_single_insufficient {db : DB} {userId : Nat} {email : String}
    {addr : Address} {pid : Nat} {q : Int} {p : Product}
    (h0 : userId ≠ 0) (h1 : email ≠ "") (h2 : addressComplete addr = true)
    (h3 : findProduct db pid = some p) (h4 : insufficientStock p q = true) :
    createOrderValidate db (some userId) (singleItemReq email addr pid q)
      = .error (.badRequest ("Insufficient inventory for product " ++ p.name)) := by
  have h0' : (userId == 0) = false := by simpa using h0
  have h1' : (email == "") = false := by simpa using h1
  simp [createOrderValidate, singleItemReq, h0', h1', h2,
    resolveItems_single_insufficient h3 h4]

/-- The create-order transaction aborts for every non-empty item list:
whatever the earlier constraint checks do, the decrement loop's first
UPDATE fails. -/
theorem runCreateOrderTx_nonempty_fails (db : DB) (draft : OrderDraft)
    (snaps : List ItemSnapshot) (i : ReqItem) (rest : List ReqItem) :
    ∃ e, runCreateOrderTx db draft snaps (i :: rest) = .error e := by
  simp only [runCreateOrderTx]
  by_cases h1 : orderNumberTaken db draft.orderNumber = true
  · exact ⟨.uniqueViolation, by rw [if_pos h1]⟩
  · by_cases h2 : (!snaps.all fun s => s.productName.isSome) = true
    · exact ⟨.notNullViolation, by rw [if_neg h1, if_pos h2]⟩
    · by_cases h3 : (!snaps.all fun s => itemFkOk { db with
          orders := db.orders ++ [mkNewOrder db.nextOrderId draft],
          nextOrderId := db.nextOrderId + 1 } s) = true
      · exact ⟨.fkViolation, by rw [if_neg h1, if_neg h2, if_pos h3]⟩
      · exact ⟨.nanQuantity, by rw [if_neg h1, if_neg h2, if_neg h3]; rfl⟩

/-- Pricing plus transaction of a request with a non-empty item list
answers 500 and leaves the store unchanged. -/
theorem createOrderCommit_nonempty (db : DB) (num : String) (userId : Nat)
    (req : CreateOrderRequest) (snaps : List ItemSnapshot) (subtotal : Rat)
    (i : ReqItem) (rest : List ReqItem) (h : req.items = i :: rest) :
    createOrderCommit db num userId req snaps subtotal = (.internalError, db) := by
  obtain ⟨e, he⟩ := runCreateOrderTx_nonempty_fails db (mkDraft num userId req subtotal)
    snaps i rest
  simp [createOrderCommit, h, he]

/-- The literal `createOrder` handler never changes the store. -/
theorem createOrder_state (db : DB) (auth : Option Nat) (num : String)
    (req : CreateOrderRequest) : (createOrder db auth num req).2 = db := by
  cases h : createOrderValidate db auth req <;> simp [createOrder, h]

/-- The `createOrder` handler with the stray token removed never changes
the store either: validation rejects empty carts, and for a non-empty cart
the transaction aborts at the decrement loop and rolls back. -/
theorem createOrderNoStray_state (db : DB) (auth : Option Nat) (num : String)
    (req : CreateOrderRequest) : (createOrderNoStray db auth num req).2 = db := by
  cases h : createOrderValidate db auth req with
  | error r => simp [createOrderNoStray, h]
  | ok tup =>
    obtain ⟨userId, snaps, subtotal⟩ := tup
    obtain ⟨hne, -⟩ := createOrderValidate_ok_inv h
    cases hitems : req.items with
    | nil => exact absurd hitems hne
    | cons i rest =>
      have hc := createOrderCommit_nonempty db num userId req snaps subtotal i rest hitems
      simp [createOrderNoStray, h, hc]

/-- Webhook fulfillment always throws: the metadata guard rejects an
absent user id and an empty cart, and for a non-empty cart the per-item
loop throws at its first item (missing product, or the failing NaN
decrement UPDATE). -/
theorem handleSuccessfulPayment_fails (db : DB) (sess : StripeSession) :
    ∃ e, handleSuccessfulPayment db sess = .error e := by
  simp only [handleSuccessfulPayment]
  by_cases h : (sess.userId == 0 || sess.cartItems.isEmpty) = true
  · exact ⟨"Missing required metadata for order creation", by rw [if_pos h]⟩
  · rw [if_neg h]
    cases hc : sess.cartItems with
    | nil =>
      exact absurd (by rw [hc]; simp) h
    | cons i rest =>
      cases hp : findProduct db i.productId with
      | none =>
        exact ⟨"Product " ++ toString i.productId ++ " not found",
          by simp [fulfillItems, hp]⟩
      | some p =>
        exact ⟨"invalid input syntax for type integer: NaN",
          by simp [fulfillItems, hp]⟩

/-! Claim theorems. -/

/-- C1: order creation is all-or-nothing.  The literal `createOrder`
handler never mutates the store (its second component is always the input
store).  With the line-177 slip removed, every run either leaves the store
exactly unchanged, or answers 201 having, in one transactional step,
appended the order row, appended one item row per requested item (all
carrying the new order's id, and at least one since empty carts are
rejected), and applied the decrement loop to products and variants; no
other outcome — in particular no order without items and no partial
decrement — is possible. -/
theorem createOrder_all_or_nothing (db : DB) (auth : Option Nat) (num : String)
    (req : CreateOrderRequest) :
    (createOrder db auth num req).2 = db ∧
    ((createOrderNoStray db auth num req).2 = db ∨
      ∃ o its,
        (createOrderNoStray db auth num req).1 = .created o its ∧
        (createOrderNoStray db auth num req).2.orders = db.orders ++ [o] ∧
        (createOrderNoStray db auth num req).2.orderItems = db.orderItems ++ its ∧
        its.length = req.items.length ∧ req.items ≠ [] ∧
        (∀ it ∈ its, it.orderId = o.id) ∧
        (createOrderNoStray db auth num req).2.products
          = (applyDecrements db req.items).products ∧
        (createOrderNoStray db auth num req).2.variants
          = (applyDecrements db req.items).variants) := by
  constructor
  · cases h : createOrderValidate db auth req <;> simp [createOrder, h]
  · cases h : createOrderValidate db auth req with
    | error r => left; simp [createOrderNoStray, h]
    | ok tup =>
      obtain ⟨userId, snaps, subtotal⟩ := tup
      obtain ⟨hne, hres⟩ := createOrderValidate_ok_inv h
      have hlen := resolveItems_length req.items hres
      have hceq : createOrderNoStray db auth num req
          = createOrderCommit db num userId req snaps subtotal := by
        simp [createOrderNoStray, h]
      rw [hceq]
      rcases createOrderCommit_cases db num userId req snaps subtotal with
        hfail | ⟨o, its, h1, h2, h3, h4, h5, h6, h7⟩
      · left; exact hfail
      · right; exact ⟨o, its, h1, h2, h3, h4.trans hlen, hne, h5, h6, h7⟩

/-- C2: refutation evidence for the concurrent-oversell scenario.  Under
every schedule both requests fail with a 500 and nothing changes: the
literal handler throws at the line-177 stray statement before its
transaction, and with that token removed both transactions abort at the
decrement UPDATE (Column-minus-number is NaN, rejected by the integer
quantity column) and roll back — shown here on the schedule in which both
pre-transaction stock checks read the initial state.  The scenario's
"exactly one succeeds, the other fails InsufficientStock, final quantity
2" never happens: neither request succeeds and the quantity stays 5. -/
theorem c2_concurrent_requests_both_fail :
    widget.quantity = 5 ∧ widget.trackQuantity = true ∧ widget.allowBackorder = false ∧
    createOrder db0 (some 7) "ORD-A" (reqQty 3) = (.internalError, db0) ∧
    createOrder db0 (some 7) "ORD-B" (reqQty 3) = (.internalError, db0) ∧
    (twoConcurrentCreates db0 (some 7) "ORD-A" "ORD-B" (reqQty 3) (reqQty 3)).1
      = .internalError ∧
    (twoConcurrentCreates db0 (some 7) "ORD-A" "ORD-B" (reqQty 3) (reqQty 3)).2.1
      = .internalError ∧
    (twoConcurrentCreates db0 (some 7) "ORD-A" "ORD-B" (reqQty 3) (reqQty 3)).2.2 = db0 ∧
    quantityOf (twoConcurrentCreates db0 (some 7) "ORD-A" "ORD-B" (reqQty 3) (reqQty 3)).2.2 1
      = some 5 := by
  decide

/-- C3 counterexample: against `db0` (five Widgets on hand, tracked, no
backorder), the valid request for three units does not succeed — the
handler answers 500 (stray statement of line 177) and leaves the store
unchanged — and the request for six units fails with the message
"Insufficient inventory for product Widget", which carries the product
name but no available count. -/
theorem c3_claim_counterexample :
    (createOrder db0 (some 7) "ORD-A" (reqQty 3)).1 = .internalError ∧
    (createOrder db0 (some 7) "ORD-A" (reqQty 3)).2 = db0 ∧
    (createOrder db0 (some 7) "ORD-A" (reqQty 6)).1
      = .badRequest "Insufficient inventory for product Widget" ∧
    (createOrder db0 (some 7) "ORD-A" (reqQty 6)).2 = db0 := by
  decide

/-- C3 amended: for a tracked non-backorder product, a valid single-line
request for more than the on-hand quantity fails with an error carrying
the product's name (but not the available count) and leaves the store
unchanged; a request within stock does not succeed either — the handler
answers 500 with the store unchanged (the line-177 stray statement; and
even with that token removed, the transaction aborts at the failing
decrement UPDATE and rolls back, so the quantity is never decreased). -/
theorem c3_amended_stock_behavior :
    (∀ (db : DB) (userId : Nat) (num email : String) (addr : Address) (pid : Nat)
        (q : Int) (p : Product),
      userId ≠ 0 → email ≠ "" → addressComplete addr = true →
      findProduct db pid = some p → insufficientStock p q = true →
      createOrder db (some userId) num (singleItemReq email addr pid q)
        = (.badRequest ("Insufficient inventory for product " ++ p.name), db)) ∧
    (∀ (db : DB) (userId : Nat) (num email : String) (addr : Address) (pid : Nat)
        (q : Int) (p : Product),
      userId ≠ 0 → email ≠ "" → addressComplete addr = true →
      findProduct db pid = some p → insufficientStock p q = false →
      createOrder db (some userId) num (singleItemReq email addr pid q)
        = (.internalError, db)) ∧
    (∀ (db : DB) (userId : Nat) (num email : String) (addr : Address) (pid : Nat)
        (q : Int) (p : Product),
      userId ≠ 0 → email ≠ "" → addressComplete addr = true →
      findProduct db pid = some p → insufficientStock p q = false →
      createOrderNoStray db (some userId) num (singleItemReq email addr pid q)
        = (.internalError, db)) := by
  refine ⟨?_, ?_, ?_⟩
  · intro db userId num email addr pid q p h0 h1 h2 h3 h4
    have hval := createOrderValidate_single_insufficient h0 h1 h2 h3 h4
    simp [createOrder, hval]
  · intro db userId num email addr pid q p h0 h1 h2 h3 h4
    have hval := createOrderValidate_single_ok h0 h1 h2 h3 h4
    simp [createOrder, hval]
  · intro db userId num email addr pid q p h0 h1 h2 h3 h4
    have hval := createOrderValidate_single_ok h0 h1 h2 h3 h4
    have hc := createOrderCommit_nonempty db num userId (singleItemReq email addr pid q)
      [productSnap p pid q] (p.price * q) { productId := pid, variantId := none, quantity := q }
      [] rfl
    simp [createOrderNoStray, hval, hc]

/-- C3 witness: the amended behavior at concrete inputs — six Widgets
against five on hand is rejected with the name-only message and no store
change; three Widgets answer 500 with no store change, both for the
literal handler and for the handler with the stray token removed. -/
theorem c3_amended_stock_behavior_witness :
    createOrder db0 (some 7) "ORD-A" (singleItemReq "c@example.com" addr0 1 6)
      = (.badRequest ("Insufficient inventory for product " ++ widget.name), db0) ∧
    createOrder db0 (some 7) "ORD-A" (singleItemReq "c@example.com" addr0 1 3)
      = (.internalError, db0) ∧
    createOrderNoStray db0 (some 7) "ORD-A" (singleItemReq "c@example.com" addr0 1 3)
      = (.internalError, db0) :=
  ⟨c3_amended_stock_behavior.1 db0 7 "ORD-A" "c@example.com" addr0 1 6 widget
      (by decide) (by decide) (by decide) (by decide) (by decide),
   c3_amended_stock_behavior.2.1 db0 7 "ORD-A" "c@example.com" addr0 1 3 widget
      (by decide) (by decide) (by decide) (by decide) (by decide),
   c3_amended_stock_behavior.2.2 db0 7 "ORD-A" "c@example.com" addr0 1 3 widget
      (by decide) (by decide) (by decide) (by decide) (by decide)⟩

/-- C4: the monetary breakdown is never computed or stored.  On the
specification's own pricing scenario (one 999.99 laptop, two 699.99
tablets) the literal handler answers 500 with the store unchanged,
because line 177 — the very line computing `taxAmount` — carries the
stray statement `x`; and even with that single token removed the handler
still answers 500 with the store unchanged, its transaction aborting at
the first decrement UPDATE (NaN into the integer quantity column) and
rolling back, so no order row with any breakdown ever exists. -/
theorem c4_totals_unreachable :
    createOrder db4 (some 1) "ORD-1" req4 = (.internalError, db4) ∧
    createOrderNoStray db4 (some 1) "ORD-1" req4 = (.internalError, db4) ∧
    db4.orders = [] := by
  refine ⟨?_, ?_, rfl⟩
  · with_unfolding_all rfl
  · with_unfolding_all rfl

/-- C5 counterexample: the quantity-non-negativity invariant is violated
by an operation of the system that needs no inventory decrement at all:
the product-update endpoint stores whatever quantity the request body
carries.  Updating `widget` (tracked, `allowBackorder = false`) with
{quantity: -5} succeeds and leaves its stored quantity at −5. -/
theorem c5_invariant_counterexample :
    widget.allowBackorder = false ∧ widget.quantity = 5 ∧
    (updateProduct db0 (some 1) (qtyPayload (-5))).1
      = .updated { widget with quantity := -5 } ∧
    quantityOf (updateProduct db0 (some 1) (qtyPayload (-5))).2 1 = some (-5) ∧
    (-5 : Int) < 0 := by
  decide

/-- C5 amended: quantity ≥ 0 is not an invariant of the system.  The
product-update endpoint stores any requested quantity unchecked —
including a negative one, for any product, tracked or not, backorder or
not — while the order-creation and webhook-fulfillment paths preserve the
invariant only degenerately: they never change the store at all (webhook
fulfillment always rolls back at its throwing per-item loop, and both
variants of `createOrder` fail every request before anything commits). -/
theorem c5_quantity_not_invariant :
    (∀ (db : DB) (pid : Nat) (q : Int) (p : Product),
      findProduct db pid = some p →
      (updateProduct db (some pid) (qtyPayload q)).1 = .updated { p with quantity := q } ∧
      quantityOf (updateProduct db (some pid) (qtyPayload q)).2 pid = some q) ∧
    (∀ (db : DB) (ce : Except String StripeEvent), (stripeWebhook db ce).2 = db) ∧
    (∀ (db : DB) (auth : Option Nat) (num : String) (req : CreateOrderRequest),
      (createOrder db auth num req).2 = db ∧ (createOrderNoStray db auth num req).2 = db) := by
  refine ⟨?_, ?_, ?_⟩
  · intro db pid q p h3
    have h3' : db.products.find? (fun x => x.id == pid) = some p := h3
    have hpeq : p.id = pid := by simpa using List.find?_some h3'
    have hup : updateProduct db (some pid) (qtyPayload q)
        = (.updated (applyProductUpdate p (qtyPayload q)),
           { db with products := db.products.map (fun x =>
               if x.id == pid then applyProductUpdate p (qtyPayload q) else x) }) := by
      simp [updateProduct, h3, qtyPayload, skuConflict]
    have hid : (applyProductUpdate p (qtyPayload q)).id = pid := hpeq
    rw [hup]
    constructor
    · simp [applyProductUpdate, qtyPayload]
    · simp only [quantityOf, findProduct]
      rw [findProduct_map_replace db.products pid (applyProductUpdate p (qtyPayload q)) hid]
      rw [h3']
      simp [hpeq, applyProductUpdate, qtyPayload]
  · intro db ce
    cases ce with
    | error msg => rfl
    | ok ev =>
      by_cases h : (ev.type == "checkout.session.completed") = true
      · obtain ⟨e, he⟩ := handleSuccessfulPayment_fails db ev.session
        simp [stripeWebhook, h, he]
      · simp [stripeWebhook, h]
  · intro db auth num req
    exact ⟨createOrder_state db auth num req, createOrderNoStray_state db auth num req⟩

/-- C5 witness: the negative-quantity update applied at a concrete input,
via the general theorem — widget's quantity is set to −5. -/
theorem c5_quantity_not_invariant_witness :
    (updateProduct db0 (some 1) (qtyPayload (-5))).1
      = .updated { widget with quantity := -5 } ∧
    quantityOf (updateProduct db0 (some 1) (qtyPayload (-5))).2 1 = some (-5) :=
  c5_quantity_not_invariant.1 db0 1 (-5) widget (by decide)

/-- C6: an untracked product always passes the line-156 stock check
whatever its on-hand quantity (the check's conjunction starts with
`product.trackQuantity`), and order creation leaves its quantity — indeed
the whole store — unchanged: both the literal handler and the handler
with the stray token removed return the store untouched on every request,
so the reserve step commits no mutation for untracked products (nor for
any other: the decrement loop's UPDATE always fails and rolls back). -/
theorem c6_untracked_behavior :
    (∀ (p : Product) (q : Int), p.trackQuantity = false → insufficientStock p q = false) ∧
    (∀ (db : DB) (userId : Nat) (num email : String) (addr : Address) (pid : Nat)
        (q : Int) (p : Product),
      userId ≠ 0 → email ≠ "" → addressComplete addr = true →
      findProduct db pid = some p → p.trackQuantity = false →
      createOrder db (some userId) num (singleItemReq email addr pid q)
        = (.internalError, db) ∧
      createOrderNoStray db (some userId) num (singleItemReq email addr pid q)
        = (.internalError, db)) ∧
    (∀ (db : DB) (auth : Option Nat) (num : String) (req : CreateOrderRequest),
      (createOrder db auth num req).2 = db ∧ (createOrderNoStray db auth num req).2 = db) := by
  refine ⟨?_, ?_, ?_⟩
  · intro p q h; simp [insufficientStock, h]
  · intro db userId num email addr pid q p h0 h1 h2 h3 htr
    have h4 : insufficientStock p q = false := by simp [insufficientStock, htr]
    have hval := createOrderValidate_single_ok h0 h1 h2 h3 h4
    constructor
    · simp [createOrder, hval]
    · have hc := createOrderCommit_nonempty db num userId (singleItemReq email addr pid q)
        [productSnap p pid q] (p.price * q)
        { productId := pid, variantId := none, quantity := q } [] rfl
      simp [createOrderNoStray, hval, hc]
  · intro db auth num req
    exact ⟨createOrder_state db auth num req, createOrderNoStray_state db auth num req⟩

/-- C6 witness: the untracked sticker passes the stock check even for a
hundred units, and ordering three of it answers 500 with the store — in
particular its quantity of 7 — unchanged. -/
theorem c6_untracked_behavior_witness :
    insufficientStock untracked 100 = false ∧
    createOrder db6 (some 7) "ORD-C" (singleItemReq "c@example.com" addr0 3 3)
      = (.internalError, db6) ∧
    createOrderNoStray db6 (some 7) "ORD-C" (singleItemReq "c@example.com" addr0 3 3)
      = (.internalError, db6) :=
  ⟨c6_untracked_behavior.1 untracked 100 rfl,
   (c6_untracked_behavior.2.1 db6 7 "ORD-C" "c@example.com" addr0 3 3 untracked
      (by decide) (by decide) (by decide) (by decide) (by decide)).1,
   (c6_untracked_behavior.2.1 db6 7 "ORD-C" "c@example.com" addr0 3 3 untracked
      (by decide) (by decide) (by decide) (by decide) (by decide)).2⟩

/-- C7: webhook signature handling.  When signature verification fails the
handler answers 400 with the store untouched (no order is created,
whatever the payload's metadata); every verified event is acknowledged
with 200; and when fulfillment of a verified completed-checkout event
throws, the error is swallowed and the handler still answers 200 with the
store untouched (the transaction rolled back). -/
theorem c7_webhook_signature_and_ack :
    (∀ (db : DB) (msg : String),
      stripeWebhook db (.error msg)
        = ({ status := 400, body := "Webhook Error: " ++ msg }, db)) ∧
    (∀ (db : DB) (ev : StripeEvent), (stripeWebhook db (.ok ev)).1.status = 200) ∧
    (∀ (db : DB) (ev : StripeEvent) (e : String),
      ev.type = "checkout.session.completed" →
      handleSuccessfulPayment db ev.session = .error e →
      stripeWebhook db (.ok ev) = ({ status := 200, body := "received" }, db)) := by
  refine ⟨?_, ?_, ?_⟩
  · intro db msg; rfl
  · intro db ev
    by_cases h : (ev.type == "checkout.session.completed") = true
    · simp only [stripeWebhook, h, if_true]
      cases hp : handleSuccessfulPayment db ev.session with
      | ok r => obtain ⟨db', o⟩ := r; simp [hp]
      | error e => simp [hp]
    · simp [stripeWebhook, h]
  · intro db ev e ht he
    have h : (ev.type == "checkout.session.completed") = true := by simp [ht]
    simp [stripeWebhook, h, he]

/-- C7 witness: a failed verification answers 400 and leaves the store
unchanged, and a verified completed-checkout event whose fulfillment
throws (missing metadata) is still acknowledged with 200. -/
theorem c7_webhook_signature_and_ack_witness :
    stripeWebhook dbEmpty (.error "bad signature")
      = ({ status := 400, body := "Webhook Error: " ++ "bad signature" }, dbEmpty) ∧
    stripeWebhook dbEmpty (.ok evBad) = ({ status := 200, body := "received" }, dbEmpty) :=
  ⟨c7_webhook_signature_and_ack.1 dbEmpty "bad signature",
   c7_webhook_signature_and_ack.2.2 dbEmpty evBad
     "Missing required metadata for order creation" rfl rfl⟩

/-- C8 counterexample: removing an item from a shipped order is permitted.
`db8` holds an order with status `shipped` and one line; the remove-item
handler deletes that line and answers success — it never consults the
order's status (in fact it never reads the order at all). -/
theorem c8_remove_on_shipped_counterexample :
    shippedOrder.status = .shipped ∧
    (removeProductFromOrder db8 (some 1) (some 10)).1 = .okRemoved item10 ∧
    (removeProductFromOrder db8 (some 1) (some 10)).2.orderItems = [] := by
  decide

/-- C8 amended: `addItem` is rejected on orders in a terminal status and
on duplicate product lines exactly as claimed, but `removeItem` carries no
status guard: whenever a matching (order id, item id) line exists it is
deleted and returned, whatever the order's status. -/
theorem c8_item_mutation_guards :
    (∀ (db : DB) (oid : Nat) (order : Order) (pid : Nat) (vid : Option Nat)
        (q : Option Int),
      findOrder db oid = some order → terminalStatus order.status = true →
      addProductToOrder db (some oid) pid vid q
        = (.badRequest "Cannot modify order in current status", db)) ∧
    (∀ (db : DB) (oid : Nat) (order : Order) (pid : Nat) (q : Option Int) (p : Product),
      findOrder db oid = some order → terminalStatus order.status = false →
      findProduct db pid = some p → duplicateLineExists db oid pid none = true →
      addProductToOrder db (some oid) pid none q
        = (.badRequest "Product already exists in this order", db)) ∧
    (∀ (db : DB) (oid iid : Nat) (it : OrderItem) (rest : List OrderItem),
      db.orderItems.filter (fun x => x.orderId == oid && x.id == iid) = it :: rest →
      removeProductFromOrder db (some oid) (some iid)
        = (.okRemoved it,
           { db with orderItems :=
               db.orderItems.filter (fun x => !(x.orderId == oid && x.id == iid)) })) := by
  refine ⟨?_, ?_, ?_⟩
  · intro db oid order pid vid q hf ht
    simp [addProductToOrder, hf, ht]
  · intro db oid order pid q p hf ht hp hdup
    simp [addProductToOrder, hf, ht, hp, addItemInsert, hdup]
  · intro db oid iid it rest hfil
    simp [removeProductFromOrder, hfil]

/-- C8 witness: adding to the shipped order is locked; adding product 1
again to the pending order is a duplicate; removing the shipped order's
line succeeds despite the terminal status. -/
theorem c8_item_mutation_guards_witness :
    addProductToOrder db8 (some 1) 1 none none
      = (.badRequest "Cannot modify order in current status", db8) ∧
    addProductToOrder db8b (some 2) 1 none none
      = (.badRequest "Product already exists in this order", db8b) ∧
    removeProductFromOrder db8 (some 1) (some 10)
      = (.okRemoved item10,
         { db8 with orderItems :=
             db8.orderItems.filter (fun x => !(x.orderId == 1 && x.id == 10)) }) :=
  ⟨c8_item_mutation_guards.1 db8 1 shippedOrder 1 none none (by decide) (by decide),
   c8_item_mutation_guards.2.1 db8b 2 pendingOrder 1 none widget
     (by decide) (by decide) (by decide) (by decide),
   c8_item_mutation_guards.2.2 db8 1 10 item10 [] (by decide)⟩

/-- C9: item mutation is totals- and inventory-neutral.  Neither
`addProductToOrder` nor `removeProductFromOrder` ever changes the orders
table (hence every order's stored subtotal, taxAmount, shippingAmount and
total are untouched), the products table or the variants table — on any
input, success or failure. -/
theorem c9_item_mutation_frame :
    ∀ (db : DB) (oid : Option Nat) (pid : Nat) (vid : Option Nat) (q : Option Int)
      (a b : Option Nat),
      ((addProductToOrder db oid pid vid q).2.orders = db.orders ∧
       (addProductToOrder db oid pid vid q).2.products = db.products ∧
       (addProductToOrder db oid pid vid q).2.variants = db.variants) ∧
      ((removeProductFromOrder db a b).2.orders = db.orders ∧
       (removeProductFromOrder db a b).2.products = db.products ∧
       (removeProductFromOrder db a b).2.variants = db.variants) := by
  intro db oid pid vid q a b
  constructor
  · unfold addProductToOrder addItemInsert
    repeat' split
    all_goals exact ⟨rfl, rfl, rfl⟩
  · unfold removeProductFromOrder
    repeat' split
    all_goals exact ⟨rfl, rfl, rfl⟩

/-- C10: deleting an order removes all of its item rows and then the order
row in one transactional step — afterwards neither the order nor any item
referencing it exists, and product and variant inventories are untouched —
while deleting an absent order fails NotFound and changes nothing. -/
theorem c10_delete_order_cascades :
    (∀ (db : DB) (oid : Nat) (order : Order), findOrder db oid = some order →
      (deleteOrder db (some oid)).1 = .okDeleted oid ∧
      findOrder (deleteOrder db (some oid)).2 oid = none ∧
      (deleteOrder db (some oid)).2.orderItems.filter (fun it => it.orderId == oid) = [] ∧
      (deleteOrder db (some oid)).2.products = db.products ∧
      (deleteOrder db (some oid)).2.variants = db.variants) ∧
    (∀ (db : DB) (oid : Nat), findOrder db oid = none →
      deleteOrder db (some oid) = (.notFound "Order not found", db)) := by
  constructor
  · intro db oid order hf
    refine ⟨?_, ?_, ?_, ?_, ?_⟩
    · simp [deleteOrder, hf]
    · simp only [deleteOrder, hf]
      simp only [findOrder]
      exact find?_filter_self_none db.orders oid
    · simp only [deleteOrder, hf]
      exact filter_not_filter_nil db.orderItems oid
    · simp [deleteOrder, hf]
    · simp [deleteOrder, hf]
  · intro db oid hf
    simp [deleteOrder, hf]

/-- C10 witness: deleting order 1 of `db8` removes the order and its line
and leaves inventory untouched; deleting the absent order 5 of `db0` fails
NotFound with the store unchanged. -/
theorem c10_delete_order_cascades_witness :
    ((deleteOrder db8 (some 1)).1 = .okDeleted 1 ∧
     findOrder (deleteOrder db8 (some 1)).2 1 = none ∧
     (deleteOrder db8 (some 1)).2.orderItems.filter (fun it => it.orderId == 1) = [] ∧
     (deleteOrder db8 (some 1)).2.products = db8.products ∧
     (deleteOrder db8 (some 1)).2.variants = db8.variants) ∧
    deleteOrder db0 (some 5) = (.notFound "Order not found", db0) :=
  ⟨c10_delete_order_cascades.1 db8 1 shippedOrder (by decide),
   c10_delete_order_cascades.2 db0 5 (by decide)⟩

end Store
